import Mathlib

/-!
Verification of the postgrest-py request-builder client against its
natural-language specification.  The Python sources embedded here are
postgrest_py/_sync/client.py, postgrest_py/_async/client.py and
postgrest_py/_sync/request_builder.py.  Components of the package that the
sources do not include (base_request_builder.py, exceptions.py, types.py,
utils.py) are modelled from the specification and are marked as such in
their doc comments.
-/

namespace PostgrestPy

/-- A JSON value, as produced by parsing a request or response body. -/
inductive JsonValue where
  | null : JsonValue
  | bool (b : Bool) : JsonValue
  | num (n : Int) : JsonValue
  | str (s : String) : JsonValue
  | arr (xs : List JsonValue) : JsonValue
  | obj (fields : List (String × JsonValue)) : JsonValue

/-- Look up a string field of a JSON object; `none` when the value is not an
object, the key is missing, or the field is not a string. -/
def getStrField (j : JsonValue) (key : String) : Option String :=
  match j with
  | JsonValue.obj fields =>
      match fields.lookup key with
      | some (JsonValue.str s) => some s
      | _ => none
  | _ => none

/-! ### Transport sessions

httpx client sessions are mutable Python objects; builder-creation in
client.py clones them and the builders mutate the clones.  We model object
identity with a store: a session reference is a natural number indexing into
a store that maps each allocated reference to its current data.  `next` is
the number of sessions allocated so far; references below `next` are live. -/

/-- The mutable configuration carried by one httpx client session: base URL,
header mapping, timeout and auth (utils.SyncClient / utils.AsyncClient are
plain httpx client subclasses holding exactly this state). -/
structure SessionData where
  base_url : String
  headers : List (String × String)
  timeout : Int
  auth : Option String
deriving DecidableEq

/-- A store of allocated transport sessions, giving each reference its
current data. -/
structure Store where
  sessions : Nat → SessionData
  next : Nat

/-- Read the data of session reference `i`. -/
def getSession (st : Store) (i : Nat) : SessionData :=
  st.sessions i

/-- Allocate a new session object holding `d`; returns the new store and the
fresh reference. -/
def allocSession (st : Store) (d : SessionData) : Store × Nat :=
  (⟨fun i => if i = st.next then d else st.sessions i, st.next + 1⟩, st.next)

/-- Overwrite the data of session reference `i` (a Python attribute or header
assignment on the session object). -/
def setSession (st : Store) (i : Nat) (d : SessionData) : Store :=
  ⟨fun j => if j = i then d else st.sessions j, st.next⟩

/-- `session.auth = a` on session `i`. -/
def setAuth (st : Store) (i : Nat) (a : Option String) : Store :=
  setSession st i { getSession st i with auth := a }

/-- Update one key of an association list of headers, appending when the key
is absent. -/
def setAssoc (l : List (String × String)) (k v : String) : List (String × String) :=
  if l.any (fun p => p.1 = k) then
    l.map (fun p => if p.1 = k then (k, v) else p)
  else l ++ [(k, v)]

/-- `session.headers[k] = v` on session `i`. -/
def setHeader (st : Store) (i : Nat) (k v : String) : Store :=
  setSession st i
    { getSession st i with headers := setAssoc (getSession st i).headers k v }

/-! ### Requests and responses -/

/-- One outbound HTTP request as handed to the transport: the session that
issues it, the HTTP method, the path and the optional JSON body. -/
structure RequestData where
  sessionId : Nat
  method : String
  path : String
  body : Option JsonValue

/-- A transport response as the response classifier sees it: status code, the
outcome of attempting to parse the body as JSON (`none` when the body is not
valid JSON), the raw body text, and the Content-Range header when present. -/
structure HTTPResponse where
  status : Nat
  jsonBody : Option JsonValue
  bodyText : String
  contentRange : Option String

/-- The transport collaborator: issues one request and returns its response.
Injected as a pure function since retries, pooling and I O are out of scope. -/
def Transport : Type := RequestData → HTTPResponse

/-! ### The synchronous client (postgrest_py/_sync/client.py) -/

/-- SyncPostgrestClient: holds a reference to its own transport session
(created at construction from base URL, schema headers, default headers and
timeout; that construction is out of the embedded sources). -/
structure SyncPostgrestClient where
  sessionId : Nat

/-- _pre_table_op (client.py lines 62-68): read the base URL, copy the header
items into a fresh mapping, create a brand new session from them with the
same timeout, copy the auth over, and return the new session with the route
`/table_name`. -/
def pre_table_op (st : Store) (c : SyncPostgrestClient) (table_name : String) :
    Store × Nat × String :=
  let s := getSession st c.sessionId
  let (st1, sid) := allocSession st
    { base_url := s.base_url, headers := s.headers, timeout := s.timeout, auth := none }
  let st2 := setAuth st1 sid s.auth
  (st2, sid, "/" ++ table_name)

/-- SyncRequestBuilder.__init__ stores the session and path it is given. -/
structure SyncRequestBuilder where
  sessionId : Nat
  path : String

/-- SyncPostgrestClient.from_ (client.py lines 70-73). -/
def SyncPostgrestClient.from_ (st : Store) (c : SyncPostgrestClient) (table : String) :
    Store × SyncRequestBuilder :=
  let r := pre_table_op st c table
  (r.1, ⟨r.2.1, r.2.2⟩)

/-- SyncPostgrestClient.table is an alias to from_. -/
def SyncPostgrestClient.tableOp (st : Store) (c : SyncPostgrestClient) (table : String) :
    Store × SyncRequestBuilder :=
  SyncPostgrestClient.from_ st c table

/-- A pydantic model class as from_model sees it: its class name and the
optional `__table_name__` class variable. -/
structure ModelClass where
  name : String
  table_name : Option String

/-- `getattr(model, "__table_name__", model.__name__)`: the class variable
when set, else the class name. -/
def resolveTableName (m : ModelClass) : String :=
  match m.table_name with
  | some t => t
  | none => m.name

/-- The typed replica of SyncRequestBuilder returned by from_model. -/
structure ModelRequestBuilder where
  sessionId : Nat
  path : String

/-- SyncPostgrestClient.from_model (client.py lines 79-92). -/
def SyncPostgrestClient.from_model (st : Store) (c : SyncPostgrestClient) (m : ModelClass) :
    Store × ModelRequestBuilder :=
  let table_name := resolveTableName m
  let r := pre_table_op st c table_name
  (r.1, ⟨r.2.1, r.2.2⟩)

/-- `session.post(path, json=params)`: issue one POST request on the given
session and return the transport response, together with the list of
requests issued (exactly one). -/
def sessionPost (transport : Transport) (sid : Nat) (path : String) (j : JsonValue) :
    List RequestData × HTTPResponse :=
  let req : RequestData := ⟨sid, "POST", path, some j⟩
  ([req], transport req)

/-- SyncPostgrestClient.rpc (client.py lines 99-102): POST to /rpc/func with
params as the JSON body, on the client session itself. -/
def SyncPostgrestClient.rpc (_st : Store) (c : SyncPostgrestClient) (transport : Transport)
    (func : String) (params : JsonValue) : List RequestData × HTTPResponse :=
  let path := "/rpc/" ++ func
  sessionPost transport c.sessionId path params

/-! ### The asynchronous client (postgrest_py/_async/client.py)
Transcribed separately from its own file; the two are compared in C6. -/

/-- AsyncPostgrestClient: holds a reference to its own transport session. -/
structure AsyncPostgrestClient where
  sessionId : Nat

/-- AsyncPostgrestClient._pre_table_op (async client.py lines 62-68). -/
def asyncPre_table_op (st : Store) (c : AsyncPostgrestClient) (table_name : String) :
    Store × Nat × String :=
  let s := getSession st c.sessionId
  let (st1, sid) := allocSession st
    { base_url := s.base_url, headers := s.headers, timeout := s.timeout, auth := none }
  let st2 := setAuth st1 sid s.auth
  (st2, sid, "/" ++ table_name)

/-- AsyncRequestBuilder.__init__ stores the session and path it is given. -/
structure AsyncRequestBuilder where
  sessionId : Nat
  path : String

/-- AsyncPostgrestClient.from_ (async client.py lines 70-73): note the source
passes the formatted path `/table` directly rather than the path returned by
_pre_table_op. -/
def AsyncPostgrestClient.from_ (st : Store) (c : AsyncPostgrestClient) (table : String) :
    Store × AsyncRequestBuilder :=
  let r := asyncPre_table_op st c table
  (r.1, ⟨r.2.1, "/" ++ table⟩)

/-- AsyncPostgrestClient.rpc (async client.py lines 99-102). -/
def AsyncPostgrestClient.rpc (_st : Store) (c : AsyncPostgrestClient) (transport : Transport)
    (func : String) (params : JsonValue) : List RequestData × HTTPResponse :=
  let path := "/rpc/" ++ func
  sessionPost transport c.sessionId path params

/-! ### Count and return methods (postgrest_py/types.py, not in the sources) -/

/-- Modelled from the spec: types.CountMethod is the enum exact, planned,
estimated controlling the Prefer count directive. -/
inductive CountMethod where
  | exact : CountMethod
  | planned : CountMethod
  | estimated : CountMethod
deriving DecidableEq

/-- Modelled from the spec: types.ReturnMethod is the enum minimal,
headers_only, representation controlling the Prefer return directive. -/
inductive ReturnMethod where
  | minimal : ReturnMethod
  | headers_only : ReturnMethod
  | representation : ReturnMethod
deriving DecidableEq

/-- The Prefer count directive of a count method. -/
def CountMethod.directive : CountMethod → String
  | CountMethod.exact => "count=exact"
  | CountMethod.planned => "count=planned"
  | CountMethod.estimated => "count=estimated"

/-- The Prefer return directive of a return method. -/
def ReturnMethod.directive : ReturnMethod → String
  | ReturnMethod.minimal => "return=minimal"
  | ReturnMethod.headers_only => "return=headers-only"
  | ReturnMethod.representation => "return=representation"

/-- Comma-join the Prefer directives in a deterministic order: return, then
count when requested, then resolution when upserting. -/
def composePrefer (returning : ReturnMethod) (count : Option CountMethod)
    (res : Option String) : String :=
  String.intercalate ","
    ([returning.directive]
      ++ (match count with | some c => [c.directive] | none => [])
      ++ (match res with | some r => [r] | none => []))

/-! ### pre_select / pre_insert / pre_upsert / pre_update / pre_delete
(base_request_builder.py, not in the sources).  Each receives the session of
the builder, derives the HTTP method and body for the operation, records the
composed Prefer header on that session, and returns the method and body. -/

/-- Modelled from the spec: pre_select (base_request_builder.py is missing
from the sources).  Section 4.2: select maps to GET with no body; a Prefer
count directive is recorded on the session when a count method is given. -/
def pre_select (st : Store) (sid : Nat) (count : Option CountMethod) :
    Store × String × Option JsonValue :=
  match count with
  | some c => (setHeader st sid "Prefer" c.directive, "GET", none)
  | none => (st, "GET", none)

/-- Modelled from the spec: pre_insert (base_request_builder.py is missing
from the sources).  Section 4.2: insert maps to POST with the row as body;
Prefer carries the return directive, the count directive when given, and
resolution=merge-duplicates when upsert is requested. -/
def pre_insert (st : Store) (sid : Nat) (body : JsonValue) (count : Option CountMethod)
    (returning : ReturnMethod) (upsert : Bool) : Store × String × Option JsonValue :=
  let res := if upsert then some "resolution=merge-duplicates" else none
  (setHeader st sid "Prefer" (composePrefer returning count res), "POST", some body)

/-- Modelled from the spec: pre_upsert (base_request_builder.py is missing
from the sources).  Section 4.2: upsert maps to POST with a resolution
directive distinguishing merge from ignore. -/
def pre_upsert (st : Store) (sid : Nat) (body : JsonValue) (count : Option CountMethod)
    (returning : ReturnMethod) (ignore_duplicates : Bool) : Store × String × Option JsonValue :=
  let res := some (if ignore_duplicates then "resolution=ignore-duplicates"
    else "resolution=merge-duplicates")
  (setHeader st sid "Prefer" (composePrefer returning count res), "POST", some body)

/-- Modelled from the spec: pre_update (base_request_builder.py is missing
from the sources).  Section 4.2: update maps to PATCH with the changes as
body. -/
def pre_update (st : Store) (sid : Nat) (body : JsonValue) (count : Option CountMethod)
    (returning : ReturnMethod) : Store × String × Option JsonValue :=
  (setHeader st sid "Prefer" (composePrefer returning count none), "PATCH", some body)

/-- Modelled from the spec: pre_delete (base_request_builder.py is missing
from the sources).  Section 4.2: delete maps to DELETE with no body. -/
def pre_delete (st : Store) (sid : Nat) (count : Option CountMethod)
    (returning : ReturnMethod) : Store × String × Option JsonValue :=
  (setHeader st sid "Prefer" (composePrefer returning count none), "DELETE", none)

/-! ### Query request builders (postgrest_py/_sync/request_builder.py) -/

/-- SyncQueryRequestBuilder.__init__ (request_builder.py lines 25-36): stores
session, path, http_method and json.  The same four fields are what the
SyncFilterRequestBuilder, SyncSelectRequestBuilder and typed-model replicas
hold, so one record represents the instance state of all of them; which
methods each class exposes is modelled separately below. -/
structure SyncQueryRequestBuilder where
  sessionId : Nat
  path : String
  http_method : String
  json : Option JsonValue

/-- The request `session.request(http_method, path, json=json)` sends. -/
def requestOf (b : SyncQueryRequestBuilder) : RequestData :=
  ⟨b.sessionId, b.http_method, b.path, b.json⟩

/-- SyncRequestBuilder.select (request_builder.py lines 83-89). -/
def SyncRequestBuilder.select (st : Store) (rb : SyncRequestBuilder)
    (count : Option CountMethod) : Store × SyncQueryRequestBuilder :=
  let r := pre_select st rb.sessionId count
  (r.1, ⟨rb.sessionId, rb.path, r.2.1, r.2.2⟩)

/-- SyncRequestBuilder.insert (request_builder.py lines 91-106). -/
def SyncRequestBuilder.insert (st : Store) (rb : SyncRequestBuilder) (json : JsonValue)
    (count : Option CountMethod) (returning : ReturnMethod) (upsert : Bool) :
    Store × SyncQueryRequestBuilder :=
  let r := pre_insert st rb.sessionId json count returning upsert
  (r.1, ⟨rb.sessionId, rb.path, r.2.1, r.2.2⟩)

/-- SyncRequestBuilder.upsert (request_builder.py lines 108-123). -/
def SyncRequestBuilder.upsert (st : Store) (rb : SyncRequestBuilder) (json : JsonValue)
    (count : Option CountMethod) (returning : ReturnMethod) (ignore_duplicates : Bool) :
    Store × SyncQueryRequestBuilder :=
  let r := pre_upsert st rb.sessionId json count returning ignore_duplicates
  (r.1, ⟨rb.sessionId, rb.path, r.2.1, r.2.2⟩)

/-- SyncRequestBuilder.update (request_builder.py lines 125-138). -/
def SyncRequestBuilder.update (st : Store) (rb : SyncRequestBuilder) (json : JsonValue)
    (count : Option CountMethod) (returning : ReturnMethod) :
    Store × SyncQueryRequestBuilder :=
  let r := pre_update st rb.sessionId json count returning
  (r.1, ⟨rb.sessionId, rb.path, r.2.1, r.2.2⟩)

/-- SyncRequestBuilder.delete (request_builder.py lines 140-151). -/
def SyncRequestBuilder.delete (st : Store) (rb : SyncRequestBuilder)
    (count : Option CountMethod) (returning : ReturnMethod) :
    Store × SyncQueryRequestBuilder :=
  let r := pre_delete st rb.sessionId count returning
  (r.1, ⟨rb.sessionId, rb.path, r.2.1, r.2.2⟩)

/-! ### The class interface model

Which class each operation returns, and which methods each class exposes,
are facts of request_builder.py: select returns SyncSelectRequestBuilder,
insert and upsert return SyncQueryRequestBuilder, update and delete return
SyncFilterRequestBuilder.  Python resolves a method call by attribute lookup
on the class; a name that no class in the MRO defines raises AttributeError
without running any body. -/

/-- The five operation methods of SyncRequestBuilder. -/
inductive OpMethod where
  | select : OpMethod
  | insert : OpMethod
  | upsert : OpMethod
  | update : OpMethod
  | delete : OpMethod
deriving DecidableEq

/-- The Python attribute name of an operation method. -/
def OpMethod.pyName : OpMethod → String
  | OpMethod.select => "select"
  | OpMethod.insert => "insert"
  | OpMethod.upsert => "upsert"
  | OpMethod.update => "update"
  | OpMethod.delete => "delete"

/-- The builder classes of request_builder.py. -/
inductive BuilderCls where
  | requestBuilder : BuilderCls
  | queryBuilder : BuilderCls
  | filterBuilder : BuilderCls
  | selectBuilder : BuilderCls
deriving DecidableEq

/-- Modelled from the spec: BaseFilterRequestBuilder (base_request_builder.py
is missing from the sources) contributes the filter chaining methods of
sections 4.1 and 4.3 (operator filters and combinators) and no operation
methods. -/
def baseFilterMethods : List String :=
  ["filter", "eq", "neq", "gt", "gte", "lt", "lte", "like", "ilike", "is_",
   "in_", "contains", "contained_by", "or_", "not_", "match_"]

/-- Modelled from the spec: BaseSelectRequestBuilder (base_request_builder.py
is missing from the sources) extends the filter methods with the ordering and
pagination chaining of section 4.3 (filter, order and range calls). -/
def baseSelectMethods : List String :=
  baseFilterMethods ++ ["order", "limit", "range"]

/-- The methods each builder class exposes, per the class definitions and
inheritance in request_builder.py: SyncQueryRequestBuilder defines only
execute; SyncFilterRequestBuilder adds the BaseFilterRequestBuilder methods;
SyncSelectRequestBuilder adds the BaseSelectRequestBuilder methods;
SyncRequestBuilder defines exactly the five operation methods. -/
def methodsOf : BuilderCls → List String
  | BuilderCls.requestBuilder => ["select", "insert", "upsert", "update", "delete"]
  | BuilderCls.queryBuilder => ["execute"]
  | BuilderCls.filterBuilder => baseFilterMethods ++ ["execute"]
  | BuilderCls.selectBuilder => baseSelectMethods ++ ["execute"]

/-- The class of the builder each operation method returns, read off the
return types and constructor calls in request_builder.py lines 83-151. -/
def opResult : OpMethod → BuilderCls
  | OpMethod.select => BuilderCls.selectBuilder
  | OpMethod.insert => BuilderCls.queryBuilder
  | OpMethod.upsert => BuilderCls.queryBuilder
  | OpMethod.update => BuilderCls.filterBuilder
  | OpMethod.delete => BuilderCls.filterBuilder

/-- Whether attribute lookup for method `m` succeeds on class `c`. -/
def hasMethod (c : BuilderCls) (m : String) : Bool :=
  (methodsOf c).contains m

/-- The outcome of a Python method call: either the body ran (recording the
requests it issued on the network), or attribute lookup failed and Python
raised AttributeError before running any body. -/
inductive PyCallResult where
  | invoked (requests : List RequestData) : PyCallResult
  | attributeError : PyCallResult

/-- Python method-call semantics: look the name up on the class; run the body
only when the lookup succeeds. -/
def invokeMethod (c : BuilderCls) (m : String) (body : Unit → List RequestData) :
    PyCallResult :=
  if hasMethod c m then PyCallResult.invoked (body ()) else PyCallResult.attributeError

/-! ### The response classifier (base_request_builder.APIResponse, not in the
sources) and the execute paths (request_builder.py). -/

/-- APIResponse: decoded data, optional count, HTTP status. -/
structure APIResponse (α : Type) where
  data : α
  count : Option Nat
  status : Nat

/-- Modelled from the spec: Content-Range parsing (base_request_builder.py is
missing from the sources).  Section 4.4: parse `start-end/total`; a total of
`*` (or anything non-numeric) means the count was not computed, so the count
is absent rather than zero. -/
def parseContentRange (h : Option String) : Option Nat :=
  match h with
  | none => none
  | some s =>
      match s.splitOn "/" with
      | [_, total] => total.toNat?
      | _ => none

/-- Modelled from the spec: APIResponse.from_http_request_response
(base_request_builder.py is missing from the sources).  Section 4.4: decode
the body as JSON; if decoding fails or status is at least 400, signal failure
(a ValueError, which execute catches); otherwise validate the decoded value
against the caller-supplied row schema, any validation failure failing the
whole response; the count comes from the Content-Range header when parseable.
The schema is abstracted as a validation function on the decoded JSON. -/
def fromHttpRequestResponse (validate : JsonValue → Except Unit α) (r : HTTPResponse) :
    Except Unit (APIResponse α) :=
  match r.jsonBody with
  | none => Except.error ()
  | some j =>
      if 400 ≤ r.status then Except.error ()
      else
        match validate j with
        | Except.error _ => Except.error ()
        | Except.ok d =>
            Except.ok { data := d, count := parseContentRange r.contentRange, status := r.status }

/-- Modelled from the spec: exceptions.APIError (exceptions.py is missing
from the sources) carries the structured error body fields message, details,
hint and code; a field missing from the body is None. -/
structure APIError where
  message : Option String
  details : Option String
  hint : Option String
  code : Option String
deriving DecidableEq

/-- `APIError(r.json())`: build the error from the decoded body fields. -/
def APIError.fromJson (j : JsonValue) : APIError :=
  { message := getStrField j "message", details := getStrField j "details",
    hint := getStrField j "hint", code := getStrField j "code" }

/-- The observable outcome of one execute call: a returned APIResponse, a
raised APIError, or some other exception propagating uncaught (a hard
failure, named by the Python exception). -/
inductive ExecResult (α : Type) where
  | ok (resp : APIResponse α) : ExecResult α
  | apiErr (e : APIError) : ExecResult α
  | raised (exn : String) : ExecResult α

/-- SyncQueryRequestBuilder.execute (request_builder.py lines 38-49): send
`session.request(http_method, path, json=json)`; try to classify the
response; on ValueError run `raise APIError(r.json())` — and when the body is
not valid JSON that `r.json()` call itself raises JSONDecodeError, which
nothing catches.  Returns the request issued, the builder state after the
call (no field is assigned in the body), and the outcome. -/
def SyncQueryRequestBuilder.execute (validate : JsonValue → Except Unit α)
    (b : SyncQueryRequestBuilder) (transport : Transport) :
    RequestData × SyncQueryRequestBuilder × ExecResult α :=
  let req := requestOf b
  let r := transport req
  (req, b,
    match fromHttpRequestResponse validate r with
    | Except.ok a => ExecResult.ok a
    | Except.error _ =>
        match r.jsonBody with
        | some j => ExecResult.apiErr (APIError.fromJson j)
        | none => ExecResult.raised "JSONDecodeError")

/-- _SyncModelQueryRequestBuilder holds the same instance state as
SyncQueryRequestBuilder (its __init__ is inherited); only its execute is
redefined. -/
structure ModelQueryRequestBuilder where
  sessionId : Nat
  path : String
  http_method : String
  json : Option JsonValue

/-- The request the typed builder sends. -/
def modelRequestOf (b : ModelQueryRequestBuilder) : RequestData :=
  ⟨b.sessionId, b.http_method, b.path, b.json⟩

/-- _SyncModelQueryRequestBuilder.execute (request_builder.py lines 161-173):
a textual replica of SyncQueryRequestBuilder.execute with the validation
fixed to the model type parameter. -/
def ModelQueryRequestBuilder.execute (validate : JsonValue → Except Unit α)
    (b : ModelQueryRequestBuilder) (transport : Transport) :
    RequestData × ModelQueryRequestBuilder × ExecResult α :=
  let req := modelRequestOf b
  let r := transport req
  (req, b,
    match fromHttpRequestResponse validate r with
    | Except.ok a => ExecResult.ok a
    | Except.error _ =>
        match r.jsonBody with
        | some j => ExecResult.apiErr (APIError.fromJson j)
        | none => ExecResult.raised "JSONDecodeError")

/-- Whether an execute outcome is a raised APIError. -/
def ExecResult.isApiErr : ExecResult α → Bool
  | ExecResult.apiErr _ => true
  | _ => false

/-- The trivial row validation accepting the decoded JSON as is (the untyped
path, where the model defaults to a plain dict). -/
def idValidate : JsonValue → Except Unit JsonValue :=
  fun j => Except.ok j

/-- A concrete error body: the JSON object with message field "not found". -/
def notFoundBody : JsonValue :=
  JsonValue.obj [("message", JsonValue.str "not found")]

/-- A transport always answering 404 with the not-found JSON body. -/
def notFoundTransport : Transport :=
  fun _ => ⟨404, some notFoundBody, "body text", none⟩

/-- A transport always answering 404 with a body that is not valid JSON. -/
def malformedTransport : Transport :=
  fun _ => ⟨404, none, "not json", none⟩

/-- A concrete builder used in witnesses. -/
def sampleBuilder : SyncQueryRequestBuilder :=
  ⟨0, "/t", "GET", none⟩

/-- A concrete session configuration used in witnesses. -/
def sampleSession : SessionData :=
  ⟨"http://server", [("apikey", "k")], 5, some "token"⟩

/-- A one-session store used in witnesses; the client owns session 0. -/
def sampleStore : Store :=
  ⟨fun _ => sampleSession, 1⟩

end PostgrestPy

namespace PostgrestPy

/-- C1: every builder class an operation method returns exposes none of the
five operation methods, so a second operation call on it (for example insert
after select) fails attribute lookup and Python raises AttributeError before
any method body runs — hence before any network request and without touching
the builder state. -/
theorem secondOperationCallRejected (op1 op2 : OpMethod)
    (body : Unit → List RequestData) :
    invokeMethod (opResult op1) (OpMethod.pyName op2) body
      = PyCallResult.attributeError := by
  cases op1 <;> cases op2 <;> rfl

/-- C4: the typed and untyped execute paths are behaviorally identical: for
the same session, path, http_method and json fields, the same validation and
the same transport, they issue the same request and produce the same outcome
(same APIResponse on success, same APIError or exception on failure). -/
theorem typedUntypedExecuteAgree {α : Type} (validate : JsonValue → Except Unit α)
    (sid : Nat) (path http_method : String) (json : Option JsonValue)
    (transport : Transport) :
    (SyncQueryRequestBuilder.execute validate ⟨sid, path, http_method, json⟩ transport).1
      = (ModelQueryRequestBuilder.execute validate ⟨sid, path, http_method, json⟩ transport).1
    ∧ (SyncQueryRequestBuilder.execute validate ⟨sid, path, http_method, json⟩ transport).2.2
      = (ModelQueryRequestBuilder.execute validate ⟨sid, path, http_method, json⟩ transport).2.2 :=
  ⟨rfl, rfl⟩

/-- C5: execute leaves every field of the builder unchanged, and a second
execute call on the same builder — even against a transport in a different
state — sends a request equal to the first, with no memoized state carried
over. -/
theorem executeReissuesIdenticalRequest {α : Type} (validate : JsonValue → Except Unit α)
    (b : SyncQueryRequestBuilder) (t1 t2 : Transport) :
    (b.execute validate t1).2.1 = b
    ∧ ((b.execute validate t1).2.1.execute validate t2).1 = (b.execute validate t1).1
    ∧ (b.execute validate t1).1 = requestOf b :=
  ⟨rfl, rfl, rfl⟩

/-- C6: the synchronous and asynchronous clients prepare identical state for
a table operation: from the same store and session, from_ on each yields the
same resulting store, the same fresh session reference with the same cloned
configuration, and the same request path /table. -/
theorem syncAsyncFromAgree (st : Store) (sid : Nat) (table : String) :
    (SyncPostgrestClient.from_ st ⟨sid⟩ table).1
      = (AsyncPostgrestClient.from_ st ⟨sid⟩ table).1
    ∧ (SyncPostgrestClient.from_ st ⟨sid⟩ table).2.sessionId
      = (AsyncPostgrestClient.from_ st ⟨sid⟩ table).2.sessionId
    ∧ (SyncPostgrestClient.from_ st ⟨sid⟩ table).2.path
      = (AsyncPostgrestClient.from_ st ⟨sid⟩ table).2.path
    ∧ (SyncPostgrestClient.from_ st ⟨sid⟩ table).2.path = "/" ++ table
    ∧ getSession (SyncPostgrestClient.from_ st ⟨sid⟩ table).1
        (SyncPostgrestClient.from_ st ⟨sid⟩ table).2.sessionId
      = getSession (AsyncPostgrestClient.from_ st ⟨sid⟩ table).1
        (AsyncPostgrestClient.from_ st ⟨sid⟩ table).2.sessionId :=
  ⟨rfl, rfl, rfl, rfl, rfl⟩

/-- C7: the interfaces of the builders the five operations return: insert and
upsert yield a builder whose only method is execute; update and delete yield
the filter builder (filter chaining plus execute); select yields the select
builder (filter, order and range chaining plus execute); and no filter
chaining is available after insert or upsert. -/
theorem operationResultInterfaces :
    opResult OpMethod.select = BuilderCls.selectBuilder
    ∧ opResult OpMethod.update = BuilderCls.filterBuilder
    ∧ opResult OpMethod.delete = BuilderCls.filterBuilder
    ∧ methodsOf (opResult OpMethod.insert) = ["execute"]
    ∧ methodsOf (opResult OpMethod.upsert) = ["execute"]
    ∧ hasMethod (opResult OpMethod.update) "eq" = true
    ∧ hasMethod (opResult OpMethod.delete) "eq" = true
    ∧ hasMethod (opResult OpMethod.select) "eq" = true
    ∧ hasMethod (opResult OpMethod.select) "order" = true
    ∧ hasMethod (opResult OpMethod.select) "range" = true
    ∧ hasMethod (opResult OpMethod.update) "execute" = true
    ∧ hasMethod (opResult OpMethod.delete) "execute" = true
    ∧ hasMethod (opResult OpMethod.select) "execute" = true
    ∧ hasMethod (opResult OpMethod.insert) "eq" = false
    ∧ hasMethod (opResult OpMethod.insert) "order" = false
    ∧ hasMethod (opResult OpMethod.insert) "range" = false
    ∧ hasMethod (opResult OpMethod.upsert) "eq" = false
    ∧ hasMethod (opResult OpMethod.upsert) "order" = false
    ∧ hasMethod (opResult OpMethod.upsert) "range" = false := by
  decide

/-- C8: rpc issues exactly one request — a POST to /rpc/func on the client
session with params as the JSON body — and returns the transport response to
that request. -/
theorem rpcIssuesSinglePost (st : Store) (c : SyncPostgrestClient)
    (transport : Transport) (func : String) (params : JsonValue) :
    SyncPostgrestClient.rpc st c transport func params
      = ([⟨c.sessionId, "POST", "/rpc/" ++ func, some params⟩],
          transport ⟨c.sessionId, "POST", "/rpc/" ++ func, some params⟩) :=
  rfl

/-- C2 counterexample: on a 404 response whose body is not valid JSON, the
except branch of execute evaluates r.json(), which itself raises
JSONDecodeError; nothing catches it, so execute ends in a hard failure and
not in any APIError — refuting the claim that a malformed error body never
causes a hard failure and degrades to a generic error. -/
theorem malformedErrorBodyHardFailure :
    (SyncQueryRequestBuilder.execute idValidate sampleBuilder malformedTransport).2.2
      = ExecResult.raised "JSONDecodeError"
    ∧ ExecResult.isApiErr
        (SyncQueryRequestBuilder.execute idValidate sampleBuilder malformedTransport).2.2
      = false :=
  ⟨rfl, rfl⟩

/-- C2 (amended): whenever the transport response carries a valid JSON body
and its status is at least 400, execute raises the APIError built from the
message, details, hint and code fields of that body (missing fields default
to None); only when the error body is not valid JSON does the r.json() call
in the except branch itself raise, so the JSON decoding error propagates as
a hard failure instead of an APIError. -/
theorem errorBodyJsonYieldsApiError {α : Type} (validate : JsonValue → Except Unit α)
    (b : SyncQueryRequestBuilder) (transport : Transport) (j : JsonValue)
    (h1 : (transport (requestOf b)).jsonBody = some j)
    (h2 : 400 ≤ (transport (requestOf b)).status) :
    (b.execute validate transport).2.2 = ExecResult.apiErr (APIError.fromJson j) := by
  unfold SyncQueryRequestBuilder.execute fromHttpRequestResponse
  simp only [h1, if_pos h2]

/-- Witness for C2 (amended): a 404 response whose JSON body has message
field "not found" makes execute raise an APIError whose message is exactly
"not found". -/
theorem errorBodyJsonYieldsApiError_witness :
    (SyncQueryRequestBuilder.execute idValidate sampleBuilder notFoundTransport).2.2
      = ExecResult.apiErr (APIError.fromJson notFoundBody)
    ∧ APIError.fromJson notFoundBody
      = { message := some "not found", details := none, hint := none, code := none } :=
  ⟨errorBodyJsonYieldsApiError idValidate sampleBuilder notFoundTransport notFoundBody
      rfl (by decide), rfl⟩

/-- C3: a table operation clones the client session: the builder receives a
fresh session reference, distinct from the client session, whose data copies
the current base URL, headers, timeout and auth of the client session; the
client session itself is left untouched; and two chains obtained from the
same client use distinct sessions, so a header write on one chain session is
invisible to the other. -/
theorem tableOpClonesSession (st : Store) (sid : Nat) (t1 t2 : String)
    (h : sid < st.next) :
    getSession (SyncPostgrestClient.from_ st ⟨sid⟩ t1).1
        (SyncPostgrestClient.from_ st ⟨sid⟩ t1).2.sessionId
      = getSession st sid
    ∧ (SyncPostgrestClient.from_ st ⟨sid⟩ t1).2.sessionId ≠ sid
    ∧ (SyncPostgrestClient.from_ st ⟨sid⟩ t1).2.path = "/" ++ t1
    ∧ getSession (SyncPostgrestClient.from_ st ⟨sid⟩ t1).1 sid = getSession st sid
    ∧ (SyncPostgrestClient.from_
          (SyncPostgrestClient.from_ st ⟨sid⟩ t1).1 ⟨sid⟩ t2).2.sessionId
        ≠ (SyncPostgrestClient.from_ st ⟨sid⟩ t1).2.sessionId
    ∧ getSession
        (setHeader
          (SyncPostgrestClient.from_
            (SyncPostgrestClient.from_ st ⟨sid⟩ t1).1 ⟨sid⟩ t2).1
          (SyncPostgrestClient.from_
            (SyncPostgrestClient.from_ st ⟨sid⟩ t1).1 ⟨sid⟩ t2).2.sessionId
          "Prefer" "return=minimal")
        (SyncPostgrestClient.from_ st ⟨sid⟩ t1).2.sessionId
      = getSession
          (SyncPostgrestClient.from_
            (SyncPostgrestClient.from_ st ⟨sid⟩ t1).1 ⟨sid⟩ t2).1
          (SyncPostgrestClient.from_ st ⟨sid⟩ t1).2.sessionId := by
  have hne : sid ≠ st.next := Nat.ne_of_lt h
  simp only [SyncPostgrestClient.from_, pre_table_op, allocSession, setAuth,
    setSession, getSession, setHeader]
  simp [hne, Ne.symm hne]

/-- Witness for C3 at a concrete one-session store: the clause holds for the
client owning session 0 of sampleStore. -/
theorem tableOpClonesSession_witness :
    (0 : Nat) < sampleStore.next
    ∧ (getSession (SyncPostgrestClient.from_ sampleStore ⟨0⟩ "t1").1
          (SyncPostgrestClient.from_ sampleStore ⟨0⟩ "t1").2.sessionId
        = getSession sampleStore 0
      ∧ (SyncPostgrestClient.from_ sampleStore ⟨0⟩ "t1").2.sessionId ≠ 0
      ∧ (SyncPostgrestClient.from_ sampleStore ⟨0⟩ "t1").2.path = "/" ++ "t1"
      ∧ getSession (SyncPostgrestClient.from_ sampleStore ⟨0⟩ "t1").1 0
          = getSession sampleStore 0
      ∧ (SyncPostgrestClient.from_
            (SyncPostgrestClient.from_ sampleStore ⟨0⟩ "t1").1 ⟨0⟩ "t2").2.sessionId
          ≠ (SyncPostgrestClient.from_ sampleStore ⟨0⟩ "t1").2.sessionId
      ∧ getSession
          (setHeader
            (SyncPostgrestClient.from_
              (SyncPostgrestClient.from_ sampleStore ⟨0⟩ "t1").1 ⟨0⟩ "t2").1
            (SyncPostgrestClient.from_
              (SyncPostgrestClient.from_ sampleStore ⟨0⟩ "t1").1 ⟨0⟩ "t2").2.sessionId
            "Prefer" "return=minimal")
          (SyncPostgrestClient.from_ sampleStore ⟨0⟩ "t1").2.sessionId
        = getSession
            (SyncPostgrestClient.from_
              (SyncPostgrestClient.from_ sampleStore ⟨0⟩ "t1").1 ⟨0⟩ "t2").1
            (SyncPostgrestClient.from_ sampleStore ⟨0⟩ "t1").2.sessionId) :=
  ⟨by decide, tableOpClonesSession sampleStore 0 "t1" "t2" (by decide)⟩

/-- C9: every operation method of one SyncRequestBuilder hands the same
session reference of that builder to the builder it returns, so all five
operation results of one SyncRequestBuilder share one session object; fresh
sessions appear only at from_ (each client-level table operation allocates a
distinct one), so per-operation isolation holds between from_ calls, not
between operation calls on one SyncRequestBuilder. -/
theorem operationBuildersShareSession (st : Store) (rb : SyncRequestBuilder)
    (j : JsonValue) (count : Option CountMethod) (ret : ReturnMethod)
    (flag : Bool) (sid : Nat) (t : String) :
    (SyncRequestBuilder.select st rb count).2.sessionId = rb.sessionId
    ∧ (SyncRequestBuilder.insert st rb j count ret flag).2.sessionId = rb.sessionId
    ∧ (SyncRequestBuilder.upsert st rb j count ret flag).2.sessionId = rb.sessionId
    ∧ (SyncRequestBuilder.update st rb j count ret).2.sessionId = rb.sessionId
    ∧ (SyncRequestBuilder.delete st rb count ret).2.sessionId = rb.sessionId
    ∧ (SyncPostgrestClient.from_ st ⟨sid⟩ t).2.sessionId
        ≠ (SyncPostgrestClient.from_
            (SyncPostgrestClient.from_ st ⟨sid⟩ t).1 ⟨sid⟩ t).2.sessionId := by
  refine ⟨?_, rfl, rfl, rfl, rfl, ?_⟩
  · cases count <;> rfl
  · simp only [SyncPostgrestClient.from_, pre_table_op, allocSession, setAuth,
      setSession, getSession]
    omega

/-- C10: from_model resolves the table name to the __table_name__ class
variable when it is set and to the class name otherwise, and returns a typed
builder whose path is the resolved name prefixed by a slash, over a freshly
allocated session whose data clones the client session. -/
theorem fromModelResolvesTableName (st : Store) (sid : Nat) (m : ModelClass)
    (h : sid < st.next) :
    (SyncPostgrestClient.from_model st ⟨sid⟩ m).2.path
      = "/" ++ (match m.table_name with | some t => t | none => m.name)
    ∧ (SyncPostgrestClient.from_model st ⟨sid⟩ m).2.sessionId = st.next
    ∧ (SyncPostgrestClient.from_model st ⟨sid⟩ m).2.sessionId ≠ sid
    ∧ getSession (SyncPostgrestClient.from_model st ⟨sid⟩ m).1
        (SyncPostgrestClient.from_model st ⟨sid⟩ m).2.sessionId
      = getSession st sid := by
  have hne : sid ≠ st.next := Nat.ne_of_lt h
  simp only [SyncPostgrestClient.from_model, resolveTableName, pre_table_op,
    allocSession, setAuth, setSession, getSession]
  exact ⟨trivial, trivial, Ne.symm hne, by simp⟩

/-- Witness for C10: a model class named Movie with __table_name__ set to
movies resolves to /movies over the fresh session 1 of sampleStore. -/
theorem fromModelResolvesTableName_witness :
    (0 : Nat) < sampleStore.next
    ∧ ((SyncPostgrestClient.from_model sampleStore ⟨0⟩ ⟨"Movie", some "movies"⟩).2.path
        = "/" ++ (match (some "movies" : Option String) with | some t => t | none => "Movie")
      ∧ (SyncPostgrestClient.from_model sampleStore ⟨0⟩ ⟨"Movie", some "movies"⟩).2.sessionId
          = sampleStore.next
      ∧ (SyncPostgrestClient.from_model sampleStore ⟨0⟩ ⟨"Movie", some "movies"⟩).2.sessionId
          ≠ 0
      ∧ getSession (SyncPostgrestClient.from_model sampleStore ⟨0⟩ ⟨"Movie", some "movies"⟩).1
          (SyncPostgrestClient.from_model sampleStore ⟨0⟩ ⟨"Movie", some "movies"⟩).2.sessionId
        = getSession sampleStore 0) :=
  ⟨by decide, fromModelResolvesTableName sampleStore 0 ⟨"Movie", some "movies"⟩ (by decide)⟩

end PostgrestPy
